import Mathlib

/-!
Shallow embedding of the TIVA C Series lecture programs
(`CODES AND LECTURES/LESSON1..LESSON6/main.c`) and proofs of the
specification's testable properties.

Machine integers are modelled as `Nat` values; the registers written by
these programs are 32-bit, and every operation performed by the code
(`&`, `|`, `^`, `~`, `>>`) keeps a value below `2^32` when its inputs
are, so no explicit truncation is needed at the points modelled here.
A `true` button sample means the physical button is pressed, which the
pull-up wiring makes read as a low level (bit 4 of the data register
reads 0).
-/

/-! ## LESSON3: software-debounced button toggle -/

/-- `#define SYSTEM_CLOCK_FREQUENCY 16000000` from LESSON3/main.c. -/
def SYSTEM_CLOCK_FREQUENCY : Nat := 16000000

/-- `#define DELAY_DEBOUNCE SYSTEM_CLOCK_FREQUENCY/1000` from LESSON3/main.c.
C integer division truncates; `Nat` division agrees on these operands. -/
def DELAY_DEBOUNCE : Nat := SYSTEM_CLOCK_FREQUENCY / 1000

/-- The state mutated by LESSON3's main loop: the `static char flag`
latch and the GPIO Port F data register (output latch), a 32-bit value. -/
structure GateState where
  flag : Nat
  data : Nat
  deriving DecidableEq, Repr

/-- One iteration of LESSON3's `while(1)` body.

`s0` is the physical button level at the top-of-loop sample
(`state = GPIOF->DATA & 0x10`; pressed reads low, so `s0 = true` gives
`state = 0`).  `s1` is the physical button level after
`Delay(DELAY_DEBOUNCE)` returns.  The inner condition
`(flag == 0) && (state == 0)` re-tests the stored local `state` — a
plain non-volatile local unchanged since the first sample — so `s1` is
never consulted by the code.  The fired toggle is
`GPIOF->DATA ^= (~state >> 3)`, and at that point `state = 0`, so the
XOR mask is `(~0u) >> 3 = 0x1FFFFFFF`.  Returns the new state and
whether the toggle statement executed. -/
def lesson3Iter (g : GateState) (s0 s1 : Bool) : GateState × Bool :=
  let state : Nat := if s0 then 0 else 0x10
  if state = 0 then
    if g.flag = 0 ∧ state = 0 then
      ({ flag := 1, data := g.data ^^^ ((0xFFFFFFFF ^^^ state) >>> 3) }, true)
    else (g, false)
  else ({ g with flag := 0 }, false)

/-- Run LESSON3's loop over a list of per-iteration sample pairs,
returning the final state and the number of times the toggle fired. -/
def lesson3Run (g : GateState) : List (Bool × Bool) → GateState × Nat
  | [] => (g, 0)
  | s :: rest =>
    let step := lesson3Iter g s.1 s.2
    let tail := lesson3Run step.1 rest
    (tail.1, (if step.2 then 1 else 0) + tail.2)

theorem lesson3Iter_pressed_unarmed (g : GateState) (s1 : Bool) (h : g.flag = 0) :
    lesson3Iter g true s1 = (⟨1, g.data ^^^ 0x1FFFFFFF⟩, true) := by
  simp [lesson3Iter, h]

theorem lesson3Iter_pressed_armed (g : GateState) (s1 : Bool) (h : g.flag = 1) :
    lesson3Iter g true s1 = (g, false) := by
  simp [lesson3Iter, h]

theorem lesson3Iter_released (g : GateState) (s1 : Bool) :
    lesson3Iter g false s1 = ({ g with flag := 0 }, false) := by
  simp [lesson3Iter]

theorem lesson3Run_append (g : GateState) (xs ys : List (Bool × Bool)) :
    lesson3Run g (xs ++ ys) =
      ((lesson3Run (lesson3Run g xs).1 ys).1,
        (lesson3Run g xs).2 + (lesson3Run (lesson3Run g xs).1 ys).2) := by
  induction xs generalizing g with
  | nil => simp [lesson3Run]
  | cons s rest ih =>
      simp only [List.cons_append, lesson3Run]
      simp [ih, Nat.add_assoc]

theorem lesson3Run_held_armed (d : Nat) (n : Nat) :
    lesson3Run ⟨1, d⟩ (List.replicate n (true, true)) = (⟨1, d⟩, 0) := by
  induction n with
  | zero => rfl
  | succ n ih =>
      simp only [List.replicate_succ, lesson3Run,
        lesson3Iter_pressed_armed ⟨1, d⟩ true rfl, ih]
      simp

theorem lesson3Run_press (d : Nat) (n : Nat) :
    lesson3Run ⟨0, d⟩ (List.replicate (n + 1) (true, true)) =
      (⟨1, d ^^^ 0x1FFFFFFF⟩, 1) := by
  simp only [List.replicate_succ, lesson3Run,
    lesson3Iter_pressed_unarmed ⟨0, d⟩ true rfl,
    lesson3Run_held_armed (d ^^^ 0x1FFFFFFF) n]
  simp

theorem lesson3Run_rest (d : Nat) (n : Nat) :
    lesson3Run ⟨0, d⟩ (List.replicate n (false, false)) = (⟨0, d⟩, 0) := by
  induction n with
  | zero => rfl
  | succ n ih =>
      simp only [List.replicate_succ, lesson3Run,
        lesson3Iter_released ⟨0, d⟩ false, ih]
      simp

theorem lesson3Run_release (g : GateState) (m : Nat) :
    lesson3Run g (List.replicate (m + 1) (false, false)) = (⟨0, g.data⟩, 0) := by
  simp only [List.replicate_succ, lesson3Run, lesson3Iter_released g false,
    lesson3Run_rest g.data m]
  simp

theorem testBit_one_xor_mask (d : Nat) :
    (d ^^^ 0x1FFFFFFF).testBit 1 = !d.testBit 1 := by
  rw [Nat.testBit_xor]
  have h : Nat.testBit 0x1FFFFFFF 1 = true := by decide
  rw [h, Bool.xor_true]

/-- C1: with `armed`/`flag` initially 0, a press sampled as asserted at the
first detection, still asserted through the debounce delay, and held
asserted for `n` further polls fires the toggle statement exactly once;
the flag latch ends at 1, blocking any further toggle, and the target
pin PF1 (bit 1 of the data register) has flipped exactly once. -/
theorem lesson3_single_edge (n d : Nat) :
    lesson3Run ⟨0, d⟩ (List.replicate (n + 1) (true, true)) =
        (⟨1, d ^^^ 0x1FFFFFFF⟩, 1) ∧
      (d ^^^ 0x1FFFFFFF).testBit 1 = !d.testBit 1 := by
  exact ⟨lesson3Run_press d n, testBit_one_xor_mask d⟩

/-- A concrete three-poll hold of an initially dark LED fires exactly
once. -/
theorem lesson3_single_edge_concrete :
    lesson3Run ⟨0, 0⟩ (List.replicate 3 (true, true)) = (⟨1, 0x1FFFFFFF⟩, 1) := by
  decide

/-- C2 (code bug): the code never re-samples the input after
`Delay(DELAY_DEBOUNCE)` — the inner condition re-tests the stored local
`state`.  With `flag = 0`, a press that is asserted at the first sample
(`s0 = true`) but de-asserted by the time the delay returns
(`s1 = false`) still fires the toggle and sets the flag, where the claim
requires zero toggles and `armed` unchanged. -/
theorem lesson3_stale_resample :
    lesson3Iter ⟨0, 0⟩ true false = (⟨1, 0x1FFFFFFF⟩, true) := by decide

/-- C3: whenever a poll observes the input de-asserted the flag latch is
cleared to 0, and a press of `n1 + 1` polls, a release of `m + 1` polls,
then a second press of `n2 + 1` polls fires the toggle exactly twice —
one additional toggle for the second press — returning the data register
to its initial value (two XORs with the same mask cancel). -/
theorem lesson3_rearm (n1 m n2 d : Nat) :
    (∀ (g : GateState) (s1 : Bool), (lesson3Iter g false s1).1.flag = 0) ∧
      lesson3Run ⟨0, d⟩
          (List.replicate (n1 + 1) (true, true) ++
            (List.replicate (m + 1) (false, false) ++
              List.replicate (n2 + 1) (true, true))) =
        (⟨1, d⟩, 2) := by
  constructor
  · intro g s1
    rw [lesson3Iter_released]
  · rw [lesson3Run_append, lesson3Run_press, lesson3Run_append,
      lesson3Run_release, lesson3Run_press, Nat.xor_cancel_right]
    simp

/-- C3 has no propositional hypothesis; this instance just records a
concrete press-release-press run for reference. -/
theorem lesson3_rearm_concrete :
    lesson3Run ⟨0, 0⟩
        (List.replicate 2 (true, true) ++
          (List.replicate 2 (false, false) ++ List.replicate 2 (true, true))) =
      (⟨1, 0⟩, 2) := by decide

/-- C6 counterexample: when the edge event fires, bit 2 of the data
register — not the target pin's bit 1 — also changes: from data register
0 the fired XOR produces 0x1FFFFFFF, whose bit 2 is set. -/
theorem lesson3_edge_frame_cex :
    (lesson3Iter ⟨0, 0⟩ true true).1.data.testBit 2 ≠ (0 : Nat).testBit 2 := by
  decide

/-- C6 amended: the fired edge event XORs the data register with
`(~0u) >> 3 = 0x1FFFFFFF`, so the target pin's bit 1 toggles, but so do
all register bits 0 through 28; only bits 29 and above are unchanged.
(Physically only PF1 is driven, since `DIR`/`DEN` enable only PF1 as a
digital output, but at the data-register level non-target bits change.) -/
theorem lesson3_edge_mask (g : GateState) (s1 : Bool) (i : Nat)
    (h : g.flag = 0) (hi : 29 ≤ i) :
    (lesson3Iter g true s1).1.data = g.data ^^^ 0x1FFFFFFF ∧
      (lesson3Iter g true s1).1.data.testBit 1 = !g.data.testBit 1 ∧
      (lesson3Iter g true s1).1.data.testBit i = g.data.testBit i := by
  rw [lesson3Iter_pressed_unarmed g s1 h]
  refine ⟨rfl, testBit_one_xor_mask g.data, ?_⟩
  rw [Nat.testBit_xor]
  have hlt : (0x1FFFFFFF : Nat) < 2 ^ i :=
    lt_of_lt_of_le (by norm_num) (Nat.pow_le_pow_right (by norm_num) hi)
  rw [Nat.testBit_lt_two_pow hlt, Bool.xor_false]

/-- C6 amended witness: the mask theorem evaluated at data register 0,
`s1 = true`, bit 30. -/
theorem lesson3_edge_mask_witness :
    (⟨0, 0⟩ : GateState).flag = 0 ∧ 29 ≤ 30 ∧
      ((lesson3Iter ⟨0, 0⟩ true true).1.data = (0 : Nat) ^^^ 0x1FFFFFFF ∧
        (lesson3Iter ⟨0, 0⟩ true true).1.data.testBit 1 = !(0 : Nat).testBit 1 ∧
        (lesson3Iter ⟨0, 0⟩ true true).1.data.testBit 30 = (0 : Nat).testBit 30) :=
  ⟨rfl, by decide, lesson3_edge_mask ⟨0, 0⟩ true 30 rfl (by decide)⟩

/-! ## Debounce window calibration (C7) -/

/-- C7 counterexample: `DELAY_DEBOUNCE` is 16000 iterations, not the 1000
ticks the claim states for the 16 MHz clock. -/
theorem delay_debounce_not_1000 :
    DELAY_DEBOUNCE = 16000 ∧ DELAY_DEBOUNCE ≠ 1000 := by decide

/-- C7 amended: the debounce window iteration count is computed as
`SYSTEM_CLOCK_FREQUENCY / 1000`, which at the 16 MHz system clock yields
16000 iterations — the number of 16 MHz clock ticks in 1 ms. -/
theorem delay_debounce_value :
    DELAY_DEBOUNCE = SYSTEM_CLOCK_FREQUENCY / 1000 ∧ DELAY_DEBOUNCE = 16000 :=
  ⟨rfl, by decide⟩

/-! ## BusyWaitClock termination (C8) -/

/-- `#define DELAY_VALUE 1000000` from LESSON1/main.c. -/
def DELAY_VALUE : Nat := 1000000

/-- Fuel-indexed small-step model of the spin loop shared by LESSON1's
and LESSON3's `Delay`: `for (i = 0; i < counter; i++) {}`.  Each step
tests the guard `i < counter`; if it holds the counter variable is
incremented, otherwise the loop exits returning the final value of `i`.
`none` means the fuel ran out before the guard failed. -/
def delayLoop (counter i : Nat) : Nat → Option Nat
  | 0 => none
  | fuel + 1 =>
      if i < counter then delayLoop counter (i + 1) fuel else some i

theorem delayLoop_exits (k : Nat) :
    ∀ i : Nat, delayLoop (i + k) i (k + 1) = some (i + k) := by
  induction k with
  | zero => intro i; simp [delayLoop]
  | succ k ih =>
      intro i
      have hlt : i < i + (k + 1) := by omega
      have harg : i + (k + 1) = (i + 1) + k := by omega
      rw [delayLoop, if_pos hlt, harg, ih (i + 1)]

/-- C8: the spin loop of `Delay` terminates for every requested
iteration count: the loop counter rises monotonically from 0 and the
guard fails after exactly `counter` iterations, with the counter at the
finite bound `counter`; in particular LESSON1's fixed
`DELAY_VALUE`-iteration loop terminates. -/
theorem Delay_terminates (counter : Nat) :
    delayLoop counter 0 (counter + 1) = some counter ∧
      delayLoop DELAY_VALUE 0 (DELAY_VALUE + 1) = some DELAY_VALUE := by
  constructor
  · have h := delayLoop_exits counter 0
    simpa using h
  · have h := delayLoop_exits DELAY_VALUE 0
    simpa using h

/-! ## LESSON6: SysTick interrupt-driven toggle (C4, C9) -/

/-- The machine registers LESSON6/main.c touches: `SYSCTL->RCGCGPIO`
(`rcgc`), `GPIOF->DIR`, `GPIOF->DEN`, `GPIOF->DATA`, and the SysTick
`LOAD`, `CTRL`, `VAL` registers. -/
structure L6State where
  rcgc : Nat
  dir : Nat
  den : Nat
  data : Nat
  load : Nat
  ctrl : Nat
  val : Nat
  deriving DecidableEq, Repr

/-- `SysTick_Handler` from LESSON6/main.c: `GPIOF->DATA ^= 8;` —
XOR-toggle of PF3 (bit 3), touching no other register. -/
def SysTick_Handler (s : L6State) : L6State :=
  { s with data := s.data ^^^ 8 }

/-- A concrete all-zero register file, used to instantiate the frame
theorem. -/
def l6zero : L6State := ⟨0, 0, 0, 0, 0, 0, 0⟩

/-- C4: after `N` invocations of the SysTick handler the logical level
of PF3 (bit 3 of the data register) equals its initial level XOR
(N mod 2 = 1); in particular two invocations return the data register to
its original value. -/
theorem sysTickHandler_parity (s : L6State) (N : Nat) :
    ((SysTick_Handler^[N]) s).data.testBit 3 =
        ((s.data.testBit 3).xor (decide (N % 2 = 1))) ∧
      ((SysTick_Handler^[2]) s).data = s.data := by
  constructor
  · induction N with
    | zero => simp
    | succ N ih =>
        rw [Function.iterate_succ_apply']
        have hd : (SysTick_Handler ((SysTick_Handler^[N]) s)).data =
            ((SysTick_Handler^[N]) s).data ^^^ 8 := rfl
        rw [hd, Nat.testBit_xor, ih]
        have h8 : Nat.testBit 8 3 = true := by decide
        rw [h8]
        rcases Nat.mod_two_eq_zero_or_one N with h | h
        · have h1 : (N + 1) % 2 = 1 := by omega
          simp [h, h1]
        · have h1 : (N + 1) % 2 = 0 := by omega
          simp [h, h1]
  · show (s.data ^^^ 8) ^^^ 8 = s.data
    exact Nat.xor_cancel_right 8 s.data

/-- C9: one handler invocation leaves every bit of the data register
other than bit 3 unchanged, inverts bit 3, and leaves every other
modelled register untouched. -/
theorem sysTickHandler_frame (s : L6State) (i : Nat) (h : i ≠ 3) :
    (SysTick_Handler s).data.testBit i = s.data.testBit i ∧
      (SysTick_Handler s).data.testBit 3 = !s.data.testBit 3 ∧
      (SysTick_Handler s).rcgc = s.rcgc ∧
      (SysTick_Handler s).dir = s.dir ∧
      (SysTick_Handler s).den = s.den ∧
      (SysTick_Handler s).load = s.load ∧
      (SysTick_Handler s).ctrl = s.ctrl ∧
      (SysTick_Handler s).val = s.val := by
  refine ⟨?_, ?_, rfl, rfl, rfl, rfl, rfl, rfl⟩
  · show (s.data ^^^ 8).testBit i = s.data.testBit i
    rw [Nat.testBit_xor]
    have h8 : Nat.testBit 8 i = false := by
      have he : (8 : Nat) = 2 ^ 3 := by norm_num
      rw [he]
      exact Nat.testBit_two_pow_of_ne (Ne.symm h)
    rw [h8, Bool.xor_false]
  · show (s.data ^^^ 8).testBit 3 = !s.data.testBit 3
    rw [Nat.testBit_xor]
    have h8 : Nat.testBit 8 3 = true := by decide
    rw [h8, Bool.xor_true]

/-- C9 witness: the frame theorem evaluated at the all-zero register
file and bit 0. -/
theorem sysTickHandler_frame_witness :
    (0 : Nat) ≠ 3 ∧
      ((SysTick_Handler l6zero).data.testBit 0 = l6zero.data.testBit 0 ∧
        (SysTick_Handler l6zero).data.testBit 3 = !l6zero.data.testBit 3 ∧
        (SysTick_Handler l6zero).rcgc = l6zero.rcgc ∧
        (SysTick_Handler l6zero).dir = l6zero.dir ∧
        (SysTick_Handler l6zero).den = l6zero.den ∧
        (SysTick_Handler l6zero).load = l6zero.load ∧
        (SysTick_Handler l6zero).ctrl = l6zero.ctrl ∧
        (SysTick_Handler l6zero).val = l6zero.val) :=
  ⟨by decide, sysTickHandler_frame l6zero 0 (by decide)⟩

/-! ## LESSON2: GPIO input polling (C10) -/

/-- One iteration of LESSON2's `while(1)` body:
`state = GPIOF->DATA & 0x10; GPIOF->DATA = (~state >> 3);`.
`data` is the value the data-register read returns (bit 4 is the button
level, which reads 0 when pressed); the returned value is the full new
contents assigned to the data register.  `state` is a 32-bit
`unsigned int`, so `~state` is `0xFFFFFFFF ^^^ state` and `>>` is a
logical shift. -/
def lesson2Step (data : Nat) : Nat :=
  (0xFFFFFFFF ^^^ (data &&& 0x10)) >>> 3

theorem lesson2Step_eq (data : Nat) :
    lesson2Step data = if data.testBit 4 then 0x1FFFFFFD else 0x1FFFFFFF := by
  have h : data &&& 0x10 = (data.testBit 4).toNat * 0x10 := by
    have h2 := Nat.and_two_pow data 4
    norm_num at h2
    exact h2
  rcases hb : data.testBit 4 <;>
    simp only [lesson2Step, h, hb, Bool.toNat_true, Bool.toNat_false,
      if_true, if_false] <;>
    decide

/-- C10: every LESSON2 loop iteration overwrites the whole data register
with `(~(DATA & 0x10)) >> 3`; the new value is 0x1FFFFFFF when the
button bit read 0 (pressed) and 0x1FFFFFFD when it read 1, so the red
LED bit (bit 1) is set exactly when the button bit read 0, and every
other bit of the register is replaced by this expression's bits rather
than preserved. -/
theorem lesson2_overwrite (data : Nat) :
    lesson2Step data = (if data.testBit 4 then 0x1FFFFFFD else 0x1FFFFFFF) ∧
      (lesson2Step data).testBit 1 = !data.testBit 4 := by
  refine ⟨lesson2Step_eq data, ?_⟩
  rw [lesson2Step_eq data]
  rcases hb : data.testBit 4 <;> simp [hb] <;> decide

/-! ## LESSON5: SysTick polled toggle (C5) -/

/-- An event in a run of LESSON5's polled loop: either the hardware
counter completes one reload period (`elapse`), or the loop body
executes once and reads `SysTick->CTRL` (`poll`). -/
inductive TimerEvent where
  | elapse : TimerEvent
  | poll : TimerEvent
  deriving DecidableEq, Repr

/-- The state of a polled run: the COUNTFLAG status bit (bit 16 of
`SysTick->CTRL`), the GPIO Port F data register, and the number of polls
that observed the bit set. -/
structure PolledState where
  countflag : Bool
  data : Nat
  seen : Nat
  deriving DecidableEq, Repr

/-- Modelled from the spec: the SysTick hardware behind
`SysTick->CTRL & 0x10000` is not part of src/ — LESSON5/main.c only
reads the bit.  Per the spec's one-shot contract, COUNTFLAG is latched
by the hardware when the counter counts down through zero (one reload
period elapses) and is cleared by a read of CTRL, so each period yields
exactly one true observation.  A `poll` event is one iteration of
LESSON5's `while(1)` body, which performs that read and, on observing
the bit set, executes `GPIOF->DATA ^= 8` (the code from src/). -/
def lesson5Step (s : PolledState) : TimerEvent → PolledState
  | TimerEvent.elapse => { s with countflag := true }
  | TimerEvent.poll =>
      if s.countflag then
        { countflag := false, data := s.data ^^^ 8, seen := s.seen + 1 }
      else { s with countflag := false }

/-- Run the polled loop over a sequence of events. -/
def lesson5Run (s : PolledState) : List TimerEvent → PolledState
  | [] => s
  | e :: rest => lesson5Run (lesson5Step s e) rest

/-- The event sequence of a run in which `gaps.length` reload periods
elapse and every loop-body iteration costs less than one period: each
`elapse` is followed by at least one `poll` before the next `elapse`. -/
def pollSchedule : List Nat → List TimerEvent
  | [] => []
  | k :: rest =>
      (TimerEvent.elapse :: List.replicate (k + 1) TimerEvent.poll) ++
        pollSchedule rest

theorem lesson5Run_append (s : PolledState) (xs ys : List TimerEvent) :
    lesson5Run s (xs ++ ys) = lesson5Run (lesson5Run s xs) ys := by
  induction xs generalizing s with
  | nil => rfl
  | cons e rest ih =>
      simp only [List.cons_append, lesson5Run]
      exact ih (lesson5Step s e)

theorem lesson5Run_idle (d c : Nat) (m : Nat) :
    lesson5Run ⟨false, d, c⟩ (List.replicate m TimerEvent.poll) =
      ⟨false, d, c⟩ := by
  induction m with
  | zero => rfl
  | succ m ih =>
      simp only [List.replicate_succ, lesson5Run, lesson5Step, if_neg
        Bool.false_ne_true, ih]

theorem lesson5Run_period (d c k : Nat) :
    lesson5Run ⟨false, d, c⟩
        (TimerEvent.elapse :: List.replicate (k + 1) TimerEvent.poll) =
      ⟨false, d ^^^ 8, c + 1⟩ := by
  simp only [lesson5Run, List.replicate_succ, lesson5Step, if_pos rfl]
  exact lesson5Run_idle (d ^^^ 8) (c + 1) k

theorem lesson5_schedule (gaps : List Nat) :
    ∀ d c : Nat,
      (lesson5Run ⟨false, d, c⟩ (pollSchedule gaps)).seen = c + gaps.length := by
  induction gaps with
  | nil => intro d c; simp [pollSchedule, lesson5Run]
  | cons k rest ih =>
      intro d c
      rw [pollSchedule, lesson5Run_append, lesson5Run_period, ih (d ^^^ 8) (c + 1)]
      simp only [List.length_cons]
      omega

/-- C5: in a polled run whose event schedule has `gaps.length` reload
periods, each followed by at least one loop-body poll before the next
(loop-body cost below one period), starting with the status bit clear,
the elapsed check `SysTick->CTRL & 0x10000` is observed true exactly
`gaps.length` times — no period's completion is read twice by a fast
poll loop (the extra polls in each gap observe false) and none is
missed. -/
theorem lesson5_elapsed_exactly_once (gaps : List Nat) (d : Nat) :
    (lesson5Run ⟨false, d, 0⟩ (pollSchedule gaps)).seen = gaps.length := by
  have h := lesson5_schedule gaps d 0
  simpa using h
